import Mathlib

/-!
A shallow embedding of the conversation session engine of the
`obeliscaDivergencia` desktop chat client (package `openAIClient`,
file `chatSession.py`, with configuration handling from `config.py`),
together with theorems settling the specification claims about it.

External effects are modelled explicitly:
* the tokenizer (`tiktoken` `cl100k_base` encode length) is a parameter
  `tok : String → Nat`;
* the remote completion client is a parameter
  `client : List Turn → Except String ApiResponse`, the error string
  standing for the message of the raised exception;
* the file system seen by `readFilesContent` is a parameter
  `fsRead : String → String` mapping the comma-joined path string to the
  ingestion block it produces, and a single file on disk is a `FileInfo`
  record carrying the outcomes of the size probe, the UTF-8 decode and
  the DOCX/PDF extraction routines.
-/

namespace ObeliscaDivergencia

/-- One role-tagged message unit, `{"role": ..., "content": ...}` in
`chatSession.py`. -/
structure Turn where
  role : String
  content : String
deriving DecidableEq, Repr

/-- Python `str.strip()`: remove leading and trailing whitespace.
Implemented over the character list so that it evaluates by kernel
reduction. -/
def pyStrip (s : String) : String :=
  ⟨((s.data.dropWhile Char.isWhitespace).reverse.dropWhile Char.isWhitespace).reverse⟩

/-- Python `str.lower()` (ASCII case folding, which is all the source
applies it to). -/
def pyLower (s : String) : String := ⟨s.data.map Char.toLower⟩

/-- Python `str.endswith(pat)`. -/
def pyEndsWith (s pat : String) : Bool := List.isSuffixOf pat.data s.data

/-- `ChatSession.FILE_MARKER_START`. -/
def FILE_MARKER_START : String := "<|file|>"

/-- `ChatSession.FILE_MARKER_END`. -/
def FILE_MARKER_END : String := "<|/file|>"

/-- `ChatSession.countTokens`: sum of the tokenizer length of every
turn's content over the conversation history. -/
def countTokens (tok : String → Nat) : List Turn → Nat
  | [] => 0
  | t :: rest => tok t.content + countTokens tok rest

/-- The loop body of `ChatSession.trimConversationHistory`, acting on the
tail of the history once the turn at index 0 (`a`) is fixed: while the
total token count of `a :: tail` exceeds the budget and the whole history
still has more than two turns, the turn at index 1 (the head of the tail)
is removed. -/
def trimTail (tok : String → Nat) (maxTok : Nat) (a : Turn) : List Turn → List Turn
  | [] => []
  | [b] => [b]
  | b :: c :: rest =>
    if countTokens tok (a :: b :: c :: rest) > maxTok then
      trimTail tok maxTok a (c :: rest)
    else
      b :: c :: rest

/-- `ChatSession.trimConversationHistory`: repeatedly remove the turn at
index 1 while the token count exceeds `maxTok` and more than two turns
remain; never touch the turn at index 0. -/
def trimConversationHistory (tok : String → Nat) (maxTok : Nat) :
    List Turn → List Turn
  | [] => []
  | a :: tl => a :: trimTail tok maxTok a tl

theorem trimTail_drop (tok : String → Nat) (maxTok : Nat) (a : Turn) :
    ∀ tl : List Turn, ∃ k, trimTail tok maxTok a tl = tl.drop k := by
  intro tl
  induction tl with
  | nil => exact ⟨0, rfl⟩
  | cons b tl ih =>
    cases tl with
    | nil => exact ⟨0, rfl⟩
    | cons c rest =>
      by_cases h : countTokens tok (a :: b :: c :: rest) > maxTok
      · obtain ⟨k, hk⟩ := ih
        refine ⟨k + 1, ?_⟩
        simpa [trimTail, h] using hk
      · exact ⟨0, by simp [trimTail, h]⟩

theorem trimTail_small (tok : String → Nat) (maxTok : Nat) (a : Turn)
    (tl : List Turn) (h : tl.length ≤ 1) : trimTail tok maxTok a tl = tl := by
  match tl with
  | [] => rfl
  | [b] => rfl
  | b :: c :: rest => simp at h

theorem trimTail_getLast? (tok : String → Nat) (maxTok : Nat) (a : Turn) :
    ∀ tl : List Turn, tl ≠ [] →
      (trimTail tok maxTok a tl).getLast? = tl.getLast? ∧
      trimTail tok maxTok a tl ≠ [] := by
  intro tl
  induction tl with
  | nil => intro h; exact absurd rfl h
  | cons b tl ih =>
    intro _
    cases tl with
    | nil => exact ⟨rfl, by simp [trimTail]⟩
    | cons c rest =>
      by_cases h : countTokens tok (a :: b :: c :: rest) > maxTok
      · have := ih (by simp)
        constructor
        · rw [show trimTail tok maxTok a (b :: c :: rest)
                = trimTail tok maxTok a (c :: rest) by simp [trimTail, h]]
          rw [this.1, List.getLast?_cons_cons]
        · rw [show trimTail tok maxTok a (b :: c :: rest)
                = trimTail tok maxTok a (c :: rest) by simp [trimTail, h]]
          exact this.2
      · exact ⟨by simp [trimTail, h], by simp [trimTail, h]⟩

theorem trimTail_converges (tok : String → Nat) (maxTok : Nat) (a : Turn)
    (ha : tok a.content ≤ maxTok) :
    ∀ tl : List Turn,
      countTokens tok (a :: trimTail tok maxTok a tl) ≤ maxTok ∨
      (a :: trimTail tok maxTok a tl).length = 2 := by
  intro tl
  induction tl with
  | nil =>
    left
    simpa [trimTail, countTokens] using ha
  | cons b tl ih =>
    cases tl with
    | nil => right; simp [trimTail]
    | cons c rest =>
      by_cases h : countTokens tok (a :: b :: c :: rest) > maxTok
      · simpa [trimTail, h] using ih
      · left
        simp only [trimTail, h, if_neg, ite_false]
        omega

/-- One deployment configuration dictionary, as produced by
`config.getDeploymentConfigs`: the keys consumed by `initOpenAiClient`
and `ChatSession.__init__`. -/
structure DeploymentConfig where
  type : String
  endpoint : String
  deploymentName : String
  apiVersion : String
deriving DecidableEq, Repr

/-- The observable outcome of a successful `config.initOpenAiClient`
call: which API family the client was configured for and which key it
carries.  The network handle itself is opaque and irrelevant to the
claims. -/
structure OpenAiClient where
  apiType : String
  apiKey : String
deriving DecidableEq, Repr

/-- `config.initOpenAiClient`, with the process environment passed in as
`env : String → Option String` (`none` = variable not set).  Pure: no
network call happens here, errors are the `ValueError`s the Python code
raises. -/
def initOpenAiClient (env : String → Option String) (cfg : DeploymentConfig) :
    Except String OpenAiClient :=
  let deploymentType := pyLower cfg.type
  let apiKey := if deploymentType = "azure" then env "AZURE_OPENAI_API_KEY"
                else env "OPENAI_API_KEY"
  match apiKey with
  | none => Except.error "API key environment variable is not set."
  | some key =>
    if key = "" then Except.error "API key environment variable is not set."
    else if deploymentType = "azure" then
      if cfg.endpoint = "" ∨ cfg.deploymentName = "" ∨ cfg.apiVersion = "" then
        Except.error "Missing required Azure OpenAI configuration."
      else Except.ok ⟨"azure", key⟩
    else if deploymentType = "openai" then
      if cfg.endpoint = "" ∨ cfg.deploymentName = "" then
        Except.error "deploymentName is not set for OpenAI configuration."
      else Except.ok ⟨"openai", key⟩
    else
      Except.error ("Unknown deployment type: " ++ deploymentType)

/-- The session-engine state owned by a `ChatSession` instance: the
fields of `ChatSession.__init__` that the claims observe (the database
handle and conversation id are persistence side channels and are not
modelled). -/
structure SessionState where
  conversationHistory : List Turn
  deploymentName : String
  lastTotalTokens : Nat
  maxFileSize : Nat
  maxContextTokens : Nat
deriving DecidableEq, Repr

/-- `ChatSession.__init__`: construct the OpenAI client first (failing
fast on a configuration error), then set up the fresh state: a
single-turn history holding the system prompt under role `"user"`,
`lastTotalTokens = 0` and a 5 MiB per-file size limit. -/
def initChatSession (env : String → Option String) (systemPrompt : String)
    (cfg : DeploymentConfig) (maxContextTokens : Nat) :
    Except String SessionState :=
  match initOpenAiClient env cfg with
  | Except.error m => Except.error m
  | Except.ok _ =>
    Except.ok
      { conversationHistory := [⟨"user", systemPrompt⟩]
        deploymentName := cfg.deploymentName
        lastTotalTokens := 0
        maxFileSize := 5 * 1024 * 1024
        maxContextTokens := maxContextTokens }

/-- What the remote completion endpoint answers on success: the reply
text (`response.choices[0].message.content`) and the optional usage
report (`response.usage.total_tokens`). -/
structure ApiResponse where
  reply : String
  usage : Option Nat
deriving DecidableEq, Repr

/-- The redacted user turn `{"role": "user", "content": userText.strip()}`
appended to the persisted conversation history by
`ChatSession.sendMessage`: exactly the typed text, whitespace-trimmed,
never any file content. -/
def redactedTurn (userText : String) : Turn := ⟨"user", pyStrip userText⟩

/-- The attachment content computed at the top of
`ChatSession.sendMessage`: the paths are comma-joined, and only when the
joined string is non-blank is `readFilesContent` (modelled by `fsRead`)
consulted. -/
def attachmentContentOf (fsRead : String → String)
    (filePathList : List String) : String :=
  let filePathsStr := String.intercalate "," filePathList
  if pyStrip filePathsStr = "" then "" else fsRead filePathsStr

/-- The full outbound user message of `ChatSession.sendMessage`:
`userText.strip()`, extended with `"\n" + attachmentContent.strip()`
when the attachment content is non-empty. -/
def fullUserMessage (userText attachmentContent : String) : String :=
  if attachmentContent = "" then pyStrip userText
  else pyStrip userText ++ "\n" ++ pyStrip attachmentContent

/-- `apiConversationHistory` in `ChatSession.sendMessage`: a copy of the
persisted history taken before the redacted append, with the full
(file-content-bearing) user turn appended.  This is the turn list handed
to the remote completion client, and no trimming is applied to it. -/
def apiConversationHistory (s : SessionState) (userText attachmentContent : String) :
    List Turn :=
  s.conversationHistory ++ [⟨"user", fullUserMessage userText attachmentContent⟩]

/-- `ChatSession.sendMessage`, returning the updated session state and
the reply string.  The remote client is `client`; an `Except.error m`
models the Python exception with message `m`, which `sendMessage`
catches and converts into the `"Error during API call: ..."` return
value.  Database persistence calls are side channels and not modelled. -/
def sendMessage (tok : String → Nat)
    (client : List Turn → Except String ApiResponse)
    (fsRead : String → String) (s : SessionState) (userText : String)
    (filePathList : List String) : SessionState × String :=
  let attachmentContent := attachmentContentOf fsRead filePathList
  let api := apiConversationHistory s userText attachmentContent
  let history1 := trimConversationHistory tok s.maxContextTokens
    (s.conversationHistory ++ [redactedTurn userText])
  match client api with
  | Except.ok response =>
    let s1 := match response.usage with
      | some u => { s with lastTotalTokens := u }
      | none => s
    let history2 := trimConversationHistory tok s.maxContextTokens
      (history1 ++ [⟨"assistant", response.reply⟩])
    ({ s1 with conversationHistory := history2 }, response.reply)
  | Except.error m =>
    ({ s with conversationHistory := history1 }, "Error during API call: " ++ m)

/-- `ChatSession.getFirstUserMessage`: linear scan for the first turn of
role `"user"`, returning its content stripped of surrounding whitespace,
or an absent result. -/
def getFirstUserMessage : List Turn → Option String
  | [] => none
  | t :: rest =>
    if t.role = "user" then some (pyStrip t.content) else getFirstUserMessage rest

theorem trimConversationHistory_mem (tok : String → Nat) (maxTok : Nat)
    (h : List Turn) :
    ∀ t ∈ trimConversationHistory tok maxTok h, t ∈ h := by
  intro t ht
  cases h with
  | nil => simp [trimConversationHistory] at ht
  | cons a tl =>
    obtain ⟨k, hk⟩ := trimTail_drop tok maxTok a tl
    rw [trimConversationHistory, hk] at ht
    rcases List.mem_cons.mp ht with h1 | h2
    · exact h1 ▸ List.mem_cons_self a tl
    · exact List.mem_cons_of_mem a (List.mem_of_mem_drop h2)

theorem trimConversationHistory_getLast?_append (tok : String → Nat)
    (maxTok : Nat) (old : List Turn) (t : Turn) :
    (trimConversationHistory tok maxTok (old ++ [t])).getLast? = some t := by
  cases old with
  | nil => rfl
  | cons a tl =>
    have h := trimTail_getLast? tok maxTok a (tl ++ [t]) (by simp)
    obtain ⟨b, l', hl⟩ := List.exists_cons_of_ne_nil h.2
    have h1 := h.1
    rw [hl] at h1
    show (a :: trimTail tok maxTok a (tl ++ [t])).getLast? = some t
    rw [hl, List.getLast?_cons_cons, h1, List.getLast?_concat]

/-- C1 — Trim postcondition (token-budget convergence): for every
conversation history whose first (system) turn costs at most
`maxTok` tokens, after `trimConversationHistory` the total token count is
at most `maxTok`, or exactly two turns remain. -/
theorem trimConversationHistory_converges (tok : String → Nat) (maxTok : Nat)
    (sys : Turn) (rest : List Turn) (h : tok sys.content ≤ maxTok) :
    countTokens tok (trimConversationHistory tok maxTok (sys :: rest)) ≤ maxTok ∨
    (trimConversationHistory tok maxTok (sys :: rest)).length = 2 := by
  simpa [trimConversationHistory] using trimTail_converges tok maxTok sys h rest

/-- Witness for C1 at a concrete over-budget three-turn history with a
one-token-per-turn tokenizer and a budget of one token. -/
theorem trimConversationHistory_converges_witness :
    (fun _ : String => 1) (Turn.mk "user" "sys").content ≤ 1 ∧
    (countTokens (fun _ : String => 1)
        (trimConversationHistory (fun _ : String => 1) 1
          [Turn.mk "user" "sys", Turn.mk "user" "a", Turn.mk "assistant" "b"]) ≤ 1 ∨
     (trimConversationHistory (fun _ : String => 1) 1
        [Turn.mk "user" "sys", Turn.mk "user" "a", Turn.mk "assistant" "b"]).length = 2) :=
  ⟨by decide,
   trimConversationHistory_converges (fun _ : String => 1) 1
     (Turn.mk "user" "sys") [Turn.mk "user" "a", Turn.mk "assistant" "b"]
     (by decide)⟩

/-- C5 — Trimming never removes the first turn and evicts oldest-first at
index 1: the trimmed history is the turn at index 0 followed by a suffix
of the original tail (so removals happen only at index 1, oldest
non-system turn first), and a history of at most two turns is returned
unchanged even when its token count still exceeds the budget. -/
theorem trimConversationHistory_evicts (tok : String → Nat) (maxTok : Nat)
    (h : List Turn) :
    (∃ k, trimConversationHistory tok maxTok h = h.take 1 ++ (h.drop 1).drop k) ∧
    (h.length ≤ 2 → trimConversationHistory tok maxTok h = h) := by
  constructor
  · cases h with
    | nil => exact ⟨0, rfl⟩
    | cons a tl =>
      obtain ⟨k, hk⟩ := trimTail_drop tok maxTok a tl
      exact ⟨k, by simp [trimConversationHistory, hk]⟩
  · intro hlen
    cases h with
    | nil => rfl
    | cons a tl =>
      have : tl.length ≤ 1 := by simpa using hlen
      simp [trimConversationHistory, trimTail_small tok maxTok a tl this]

/-- Witness for C5: a two-turn history over a zero-token budget is left
untouched by trimming. -/
theorem trimConversationHistory_evicts_witness :
    trimConversationHistory (fun _ : String => 1) 0
      [Turn.mk "user" "sys", Turn.mk "user" "a"] =
    [Turn.mk "user" "sys", Turn.mk "user" "a"] :=
  (trimConversationHistory_evicts (fun _ : String => 1) 0
      [Turn.mk "user" "sys", Turn.mk "user" "a"]).2 (by decide)

/-- A concrete environment for witnesses: only `OPENAI_API_KEY` is set. -/
def demoEnv : String → Option String :=
  fun k => if k = "OPENAI_API_KEY" then some "sk-demo" else none

/-- A concrete well-formed OpenAI deployment configuration. -/
def demoCfg : DeploymentConfig :=
  ⟨"openai", "https://api.openai.com/v1", "gpt-3.5-turbo", ""⟩

/-- A concrete configuration with an unknown deployment type. -/
def demoBadCfg : DeploymentConfig := ⟨"gemini", "e", "d", "v"⟩

/-- The session state `ChatSession.__init__` produces for system prompt
`"p"` under `demoCfg`. -/
def demoFreshState : SessionState :=
  ⟨[⟨"user", "p"⟩], "gpt-3.5-turbo", 0, 5 * 1024 * 1024, 100000⟩

/-- A concrete session mid-conversation: system prompt only, large
budget. -/
def demoSession : SessionState :=
  ⟨[⟨"user", "sys"⟩], "gpt-3.5-turbo", 0, 5 * 1024 * 1024, 100000⟩

/-- A remote-client stub that replies with the content of the newest
turn it was handed, so that the outbound turn list becomes observable
through the returned reply. -/
def echoLastClient : List Turn → Except String ApiResponse :=
  fun turns => Except.ok ⟨((turns.getLast?).map Turn.content).getD "", none⟩

/-- A concrete file-ingestion block in the exact shape
`readFilesContent` produces: newline, marker-wrapped header and content,
trailing newline. -/
def demoIngestionBlock : String := "\n<|file|>[Content from p]:\nh<|/file|>\n"

/-- A file-system stub whose every read yields `demoIngestionBlock`. -/
def demoFsRead : String → String := fun _ => demoIngestionBlock

theorem sendMessage_eq_ok (tok : String → Nat)
    (client : List Turn → Except String ApiResponse) (fsRead : String → String)
    (s : SessionState) (userText : String) (filePathList : List String)
    (r : ApiResponse)
    (hc : client (apiConversationHistory s userText
            (attachmentContentOf fsRead filePathList)) = Except.ok r) :
    sendMessage tok client fsRead s userText filePathList =
      ({ conversationHistory :=
           trimConversationHistory tok s.maxContextTokens
             (trimConversationHistory tok s.maxContextTokens
               (s.conversationHistory ++ [redactedTurn userText]) ++
              [⟨"assistant", r.reply⟩])
         deploymentName := s.deploymentName
         lastTotalTokens :=
           match r.usage with
           | some n => n
           | none => s.lastTotalTokens
         maxFileSize := s.maxFileSize
         maxContextTokens := s.maxContextTokens }, r.reply) := by
  obtain ⟨rep, usage⟩ := r
  simp only [sendMessage]
  rw [hc]
  cases usage <;> rfl

theorem sendMessage_eq_error (tok : String → Nat)
    (client : List Turn → Except String ApiResponse) (fsRead : String → String)
    (s : SessionState) (userText : String) (filePathList : List String)
    (m : String)
    (hc : client (apiConversationHistory s userText
            (attachmentContentOf fsRead filePathList)) = Except.error m) :
    sendMessage tok client fsRead s userText filePathList =
      ({ s with
          conversationHistory :=
            trimConversationHistory tok s.maxContextTokens
              (s.conversationHistory ++ [redactedTurn userText]) },
        "Error during API call: " ++ m) := by
  simp only [sendMessage]
  rw [hc]

/-- C2 — Redaction invariant: in any `sendMessage(text, paths)` call with
non-empty `paths`, the only user turn that can enter the persisted
conversation history is `redactedTurn text`, whose content is exactly
the typed text with surrounding whitespace stripped; in particular any
marker-enclosed material in that persisted turn is already present
verbatim in the stripped typed text, so injected file content (wrapped
in `<|file|>`/`<|/file|>` by the reader) is never persisted. -/
theorem sendMessage_redaction (tok : String → Nat)
    (client : List Turn → Except String ApiResponse) (fsRead : String → String)
    (s : SessionState) (userText : String) (filePathList : List String)
    (_hp : filePathList ≠ []) :
    (redactedTurn userText).content = pyStrip userText ∧
    (∀ t ∈ ((sendMessage tok client fsRead s userText filePathList).1).conversationHistory,
        t.role = "user" → t ∈ s.conversationHistory ∨ t = redactedTurn userText) ∧
    (∀ pre mid post : String,
        pyStrip userText ≠ pre ++ FILE_MARKER_START ++ mid ++ FILE_MARKER_END ++ post →
        (redactedTurn userText).content ≠
          pre ++ FILE_MARKER_START ++ mid ++ FILE_MARKER_END ++ post) := by
  refine ⟨rfl, ?_, fun pre mid post hne => hne⟩
  intro t ht hrole
  cases hc : client (apiConversationHistory s userText
      (attachmentContentOf fsRead filePathList)) with
  | ok r =>
    rw [sendMessage_eq_ok tok client fsRead s userText filePathList r hc] at ht
    have h1 := trimConversationHistory_mem _ _ _ t ht
    rcases List.mem_append.mp h1 with h2 | h3
    · have h4 := trimConversationHistory_mem _ _ _ t h2
      rcases List.mem_append.mp h4 with h5 | h6
      · exact Or.inl h5
      · exact Or.inr (List.mem_singleton.mp h6)
    · exfalso
      have h7 := List.mem_singleton.mp h3
      rw [h7] at hrole
      exact absurd hrole (by decide : ¬ ("assistant" : String) = "user")
  | error m =>
    rw [sendMessage_eq_error tok client fsRead s userText filePathList m hc] at ht
    have h1 := trimConversationHistory_mem _ _ _ t ht
    rcases List.mem_append.mp h1 with h2 | h3
    · exact Or.inl h2
    · exact Or.inr (List.mem_singleton.mp h3)

/-- Witness for C2 at a concrete call with an attachment: the persisted
turn's content is the stripped typed text. -/
theorem sendMessage_redaction_witness :
    (redactedTurn " hi ").content = pyStrip " hi " :=
  (sendMessage_redaction (fun _ : String => 1) echoLastClient demoFsRead
    demoSession " hi " ["p"] (by decide)).1

/-- C3 (amended) — Outbound history construction: the turn list handed
to the remote completion client is exactly the pre-call persisted
history with one user turn appended whose content is the stripped user
text, extended by a newline and the stripped ingestion block when the
block is non-empty; `sendMessage` consults the client only on this
untrimmed list (two clients agreeing there make `sendMessage` agree
entirely). -/
theorem sendMessage_outbound (tok : String → Nat) (fsRead : String → String)
    (s : SessionState) (userText : String) (filePathList : List String)
    (c₁ c₂ : List Turn → Except String ApiResponse)
    (hc : c₁ (apiConversationHistory s userText (attachmentContentOf fsRead filePathList))
        = c₂ (apiConversationHistory s userText (attachmentContentOf fsRead filePathList))) :
    sendMessage tok c₁ fsRead s userText filePathList =
      sendMessage tok c₂ fsRead s userText filePathList ∧
    apiConversationHistory s userText (attachmentContentOf fsRead filePathList) =
      s.conversationHistory ++
        [⟨"user",
           if attachmentContentOf fsRead filePathList = "" then pyStrip userText
           else pyStrip userText ++ "\n" ++
             pyStrip (attachmentContentOf fsRead filePathList)⟩] := by
  constructor
  · simp only [sendMessage]
    rw [hc]
  · rfl

/-- Witness for C3's amended theorem at a concrete attachment-bearing
call. -/
theorem sendMessage_outbound_witness :
    sendMessage (fun _ : String => 1) echoLastClient demoFsRead demoSession "hi" ["p"] =
      sendMessage (fun _ : String => 1) echoLastClient demoFsRead demoSession "hi" ["p"] ∧
    apiConversationHistory demoSession "hi" (attachmentContentOf demoFsRead ["p"]) =
      demoSession.conversationHistory ++
        [⟨"user",
           if attachmentContentOf demoFsRead ["p"] = "" then pyStrip "hi"
           else pyStrip "hi" ++ "\n" ++
             pyStrip (attachmentContentOf demoFsRead ["p"])⟩] :=
  sendMessage_outbound (fun _ : String => 1) demoFsRead demoSession "hi" ["p"]
    echoLastClient echoLastClient rfl

/-- Counterexample to C3 as stated: with an ingestion block of the shape
`readFilesContent` actually produces (leading and trailing newline), the
outbound user turn content is not `userText + "\n" + block` — the code
strips the block (and the user text) first — and a client echoing the
newest turn it receives makes the difference observable in the reply. -/
theorem sendMessage_outbound_counterexample :
    apiConversationHistory demoSession "hi" (attachmentContentOf demoFsRead ["p"]) ≠
      demoSession.conversationHistory ++
        [⟨"user", "hi" ++ "\n" ++ attachmentContentOf demoFsRead ["p"]⟩] ∧
    (sendMessage (fun _ : String => 1) echoLastClient demoFsRead demoSession "hi" ["p"]).2 ≠
      "hi" ++ "\n" ++ attachmentContentOf demoFsRead ["p"] := by
  decide

/-- C4 — Remote-call failure is returned as a value with no rollback:
when the client fails with message `m`, `sendMessage` returns the string
`"Error during API call: " ++ m`, the persisted history is the trimmed
pre-call history with the redacted user turn appended (which trimming
never evicts: it stays the newest turn), and no assistant turn is
appended. -/
theorem sendMessage_failure (tok : String → Nat)
    (client : List Turn → Except String ApiResponse) (fsRead : String → String)
    (s : SessionState) (userText : String) (filePathList : List String)
    (m : String)
    (hc : client (apiConversationHistory s userText
            (attachmentContentOf fsRead filePathList)) = Except.error m) :
    (sendMessage tok client fsRead s userText filePathList).2 =
      "Error during API call: " ++ m ∧
    (sendMessage tok client fsRead s userText filePathList).1.conversationHistory =
      trimConversationHistory tok s.maxContextTokens
        (s.conversationHistory ++ [redactedTurn userText]) ∧
    ((sendMessage tok client fsRead s userText filePathList).1.conversationHistory).getLast? =
      some (redactedTurn userText) ∧
    (∀ t ∈ (sendMessage tok client fsRead s userText filePathList).1.conversationHistory,
        t.role = "assistant" → t ∈ s.conversationHistory) := by
  rw [sendMessage_eq_error tok client fsRead s userText filePathList m hc]
  refine ⟨rfl, rfl, trimConversationHistory_getLast?_append tok s.maxContextTokens
    s.conversationHistory (redactedTurn userText), ?_⟩
  intro t ht hrole
  have h1 := trimConversationHistory_mem _ _ _ t ht
  rcases List.mem_append.mp h1 with h2 | h3
  · exact h2
  · exfalso
    have h4 := List.mem_singleton.mp h3
    rw [h4] at hrole
    exact absurd hrole (by decide : ¬ ("user" : String) = "assistant")

/-- Witness for C4, realizing the spec's error scenario: a fresh session
with system prompt `"sys"`, an always-failing client with message
`"boom"`, and `sendMessage("hi", [])` — the returned value is exactly
`"Error during API call: boom"` and the history has exactly 2 turns. -/
theorem sendMessage_failure_witness :
    (sendMessage (fun _ : String => 1) (fun _ => Except.error "boom") demoFsRead
        demoSession "hi" []).2 = "Error during API call: " ++ "boom" ∧
    (sendMessage (fun _ : String => 1) (fun _ => Except.error "boom") demoFsRead
        demoSession "hi" []).1.conversationHistory.length = 2 :=
  ⟨(sendMessage_failure (fun _ : String => 1) (fun _ => Except.error "boom")
      demoFsRead demoSession "hi" [] "boom" rfl).1, by decide⟩

/-- C8 — Token accounting frame condition: `lastTotalTokens` becomes the
usage total reported by the remote response when one is present, and is
left unchanged both when the response reports no usage and when the
remote call fails. -/
theorem sendMessage_lastTotalTokens (tok : String → Nat)
    (client : List Turn → Except String ApiResponse) (fsRead : String → String)
    (s : SessionState) (userText : String) (filePathList : List String) :
    (sendMessage tok client fsRead s userText filePathList).1.lastTotalTokens =
      match client (apiConversationHistory s userText
          (attachmentContentOf fsRead filePathList)) with
      | Except.ok r =>
        match r.usage with
        | some n => n
        | none => s.lastTotalTokens
      | Except.error _ => s.lastTotalTokens := by
  cases hc : client (apiConversationHistory s userText
      (attachmentContentOf fsRead filePathList)) with
  | ok r =>
    obtain ⟨rep, usage⟩ := r
    rw [sendMessage_eq_ok tok client fsRead s userText filePathList ⟨rep, usage⟩ hc]
  | error m =>
    rw [sendMessage_eq_error tok client fsRead s userText filePathList m hc]

/-- C6 (amended) — Initial history shape: every freshly and successfully
constructed session starts with a history of exactly one turn holding
the supplied system prompt — but that setup turn is stored under role
`"user"`, not role `"system"`. -/
theorem initChatSession_history (env : String → Option String)
    (systemPrompt : String) (cfg : DeploymentConfig) (maxContextTokens : Nat)
    (st : SessionState)
    (h : initChatSession env systemPrompt cfg maxContextTokens = Except.ok st) :
    st.conversationHistory = [⟨"user", systemPrompt⟩] ∧
    st.conversationHistory.length = 1 := by
  unfold initChatSession at h
  cases hco : initOpenAiClient env cfg with
  | error m => rw [hco] at h; exact absurd h (by simp)
  | ok c =>
    rw [hco] at h
    injection h with h1
    subst h1
    exact ⟨rfl, rfl⟩

/-- Witness for C6's amended theorem: the fresh state constructed under
`demoEnv`/`demoCfg` for prompt `"p"`. -/
theorem initChatSession_history_witness :
    demoFreshState.conversationHistory = [(⟨"user", "p"⟩ : Turn)] ∧
    demoFreshState.conversationHistory.length = 1 :=
  initChatSession_history demoEnv "p" demoCfg 100000 demoFreshState rfl

/-- Counterexample to C6 as stated: the fresh session's single setup
turn does not carry role `"system"` — the code stores the system prompt
under role `"user"` (`chatSession.py` line 56). -/
theorem initChatSession_history_counterexample :
    (initChatSession demoEnv "p" demoCfg 100000).toOption.map
        SessionState.conversationHistory = some [⟨"user", "p"⟩] ∧
    (Turn.mk "user" "p").role ≠ "system" := by
  decide

/-- C9 — Configuration fail-fast: client construction (and hence session
construction, which constructs the client before touching any other
state) returns an error whenever the API-key environment variable for
the (lower-cased) deployment type is missing or empty, whenever the type
is `"azure"` and endpoint, deployment name or API version is empty,
whenever the type is `"openai"` and endpoint or deployment name is
empty, and whenever the type is neither.  The model is pure, so no
network interaction can precede the error. -/
theorem initOpenAiClient_failFast (env : String → Option String)
    (cfg : DeploymentConfig)
    (h : ((if pyLower cfg.type = "azure" then env "AZURE_OPENAI_API_KEY"
           else env "OPENAI_API_KEY") = none
          ∨ (if pyLower cfg.type = "azure" then env "AZURE_OPENAI_API_KEY"
             else env "OPENAI_API_KEY") = some "")
       ∨ (pyLower cfg.type = "azure" ∧
           (cfg.endpoint = "" ∨ cfg.deploymentName = "" ∨ cfg.apiVersion = ""))
       ∨ (pyLower cfg.type = "openai" ∧
           (cfg.endpoint = "" ∨ cfg.deploymentName = ""))
       ∨ (pyLower cfg.type ≠ "azure" ∧ pyLower cfg.type ≠ "openai")) :
    (∃ m, initOpenAiClient env cfg = Except.error m) ∧
    ∀ systemPrompt maxContextTokens,
      ∃ m, initChatSession env systemPrompt cfg maxContextTokens =
        Except.error m := by
  have hrepr : initOpenAiClient env cfg =
      (match (if pyLower cfg.type = "azure" then env "AZURE_OPENAI_API_KEY"
              else env "OPENAI_API_KEY") with
       | none => Except.error "API key environment variable is not set."
       | some key =>
         if key = "" then
           Except.error "API key environment variable is not set."
         else if pyLower cfg.type = "azure" then
           if cfg.endpoint = "" ∨ cfg.deploymentName = "" ∨ cfg.apiVersion = "" then
             Except.error "Missing required Azure OpenAI configuration."
           else Except.ok ⟨"azure", key⟩
         else if pyLower cfg.type = "openai" then
           if cfg.endpoint = "" ∨ cfg.deploymentName = "" then
             Except.error "deploymentName is not set for OpenAI configuration."
           else Except.ok ⟨"openai", key⟩
         else Except.error ("Unknown deployment type: " ++ pyLower cfg.type)) :=
    rfl
  have hmain : ∃ m, initOpenAiClient env cfg = Except.error m := by
    rw [hrepr]
    cases hk : (if pyLower cfg.type = "azure" then env "AZURE_OPENAI_API_KEY"
        else env "OPENAI_API_KEY") with
    | none => exact ⟨_, rfl⟩
    | some key =>
      by_cases hke : key = ""
      · exact ⟨"API key environment variable is not set.", by simp [hke]⟩
      · rcases h with hkey | hazure | hopenai | hunknown
        · rw [hk] at hkey
          rcases hkey with h1 | h2
          · exact absurd h1 (by simp)
          · exact absurd (Option.some.inj h2) hke
        · exact ⟨"Missing required Azure OpenAI configuration.",
            by simp [hke, hazure.1, hazure.2]⟩
        · exact ⟨"deploymentName is not set for OpenAI configuration.",
            by simp [hke, hopenai.1, hopenai.2]⟩
        · exact ⟨"Unknown deployment type: " ++ pyLower cfg.type,
            by simp [hke, hunknown.1, hunknown.2]⟩
  refine ⟨hmain, ?_⟩
  intro systemPrompt maxContextTokens
  obtain ⟨m, hm⟩ := hmain
  exact ⟨m, by unfold initChatSession; rw [hm]⟩

/-- Witness for C9 at the unknown deployment type `"gemini"` with a
populated environment. -/
theorem initOpenAiClient_failFast_witness :
    (∃ m, initOpenAiClient demoEnv demoBadCfg = Except.error m) ∧
    (∃ m, initChatSession demoEnv "p" demoBadCfg 100000 = Except.error m) :=
  ⟨(initOpenAiClient_failFast demoEnv demoBadCfg (by decide)).1,
   (initOpenAiClient_failFast demoEnv demoBadCfg (by decide)).2 "p" 100000⟩

/-- C10 — On a freshly constructed session (no message sent, no history
loaded), `getFirstUserMessage` returns the system prompt with
surrounding whitespace stripped — a present result, not an absent one —
because the setup turn is stored with role `"user"` and the scan returns
the first user-role turn's stripped content. -/
theorem getFirstUserMessage_fresh (env : String → Option String)
    (systemPrompt : String) (cfg : DeploymentConfig) (maxContextTokens : Nat)
    (st : SessionState)
    (h : initChatSession env systemPrompt cfg maxContextTokens = Except.ok st) :
    getFirstUserMessage st.conversationHistory = some (pyStrip systemPrompt) := by
  unfold initChatSession at h
  cases hco : initOpenAiClient env cfg with
  | error m => rw [hco] at h; exact absurd h (by simp)
  | ok c =>
    rw [hco] at h
    injection h with h1
    subst h1
    rfl

/-- Witness for C10 at a whitespace-padded prompt: the returned value is
the stripped prompt, and concretely `"hello"`. -/
theorem getFirstUserMessage_fresh_witness :
    getFirstUserMessage
        (SessionState.mk [⟨"user", " hello "⟩] "gpt-3.5-turbo" 0
          (5 * 1024 * 1024) 100000).conversationHistory =
      some (pyStrip " hello ") ∧
    pyStrip " hello " = "hello" :=
  ⟨getFirstUserMessage_fresh demoEnv " hello " demoCfg 100000
      (SessionState.mk [⟨"user", " hello "⟩] "gpt-3.5-turbo" 0
        (5 * 1024 * 1024) 100000) rfl,
   by decide⟩

/-- `ChatSession.BINARY_EXTENSIONS`: extensions considered binary and
skipped by the reader. -/
def BINARY_EXTENSIONS : List String :=
  [".png", ".jpg", ".jpeg", ".gif", ".bmp", ".zip", ".tar", ".gz",
   ".url", ".db", ".sqlite", ".exe", ".dll", ".pyd"]

/-- A file on disk as `ChatSession._readSingleFile` observes it:
its path, its size in bytes, and the outcomes of the three extraction
routes — `utf8Content = none` models `open(...).read()` raising
`UnicodeDecodeError`, `docxParagraphs = none` models the DOCX library
raising (caught inside `extractTextFromDocx`), `pdfText = none` models
the PDF text extractor raising (caught inside `extractTextFromPdf`). -/
structure FileInfo where
  path : String
  size : Nat
  utf8Content : Option String
  docxParagraphs : Option (List String)
  pdfText : Option String
deriving DecidableEq, Repr

/-- `ChatSession.extractTextFromDocx`: the paragraphs joined by newline,
or the empty string when extraction raised. -/
def extractTextFromDocx (f : FileInfo) : String :=
  match f.docxParagraphs with
  | some ps => String.intercalate "\n" ps
  | none => ""

/-- `ChatSession.extractTextFromPdf`: the extracted text, or the empty
string when extraction raised. -/
def extractTextFromPdf (f : FileInfo) : String :=
  match f.pdfText with
  | some t => t
  | none => ""

/-- The header `_readSingleFile` places before a file's content;
`relpath` models `os.path.relpath`. -/
def fileHeader (relpath : String → String → String) (filePath : String)
    (baseDir : Option String) : String :=
  match baseDir with
  | some b =>
    "\n" ++ FILE_MARKER_START ++ "[Content from " ++ b ++ "/" ++
      relpath filePath b ++ "]:\n"
  | none => "\n" ++ FILE_MARKER_START ++ "[Content from " ++ filePath ++ "]:\n"

/-- The tuple-`endswith` test against `BINARY_EXTENSIONS`, applied to the
lower-cased path. -/
def hasBinaryExtension (filePath : String) : Bool :=
  BINARY_EXTENSIONS.any (fun ext => pyEndsWith (pyLower filePath) ext)

/-- `ChatSession._readSingleFile`: size check first, then the binary
denylist, then DOCX/PDF extraction, then plain UTF-8 read; oversized,
denylisted or undecodable files contribute the empty string, everything
else is wrapped between the file markers. -/
def readSingleFile (maxFileSize : Nat) (relpath : String → String → String)
    (f : FileInfo) (baseDir : Option String) : String :=
  if f.size > maxFileSize then ""
  else if hasBinaryExtension f.path then ""
  else if pyEndsWith (pyLower f.path) ".docx" then
    fileHeader relpath f.path baseDir ++ extractTextFromDocx f ++
      FILE_MARKER_END ++ "\n"
  else if pyEndsWith (pyLower f.path) ".pdf" then
    fileHeader relpath f.path baseDir ++ extractTextFromPdf f ++
      FILE_MARKER_END ++ "\n"
  else
    match f.utf8Content with
    | some content =>
      fileHeader relpath f.path baseDir ++ content ++ FILE_MARKER_END ++ "\n"
    | none => ""

theorem append_newline_ne_empty (s : String) : s ++ "\n" ≠ "" := by
  intro hcontra
  have hlen := congrArg String.length hcontra
  simp only [String.length_append, String.length_empty] at hlen
  have h1 : ("\n" : String).length = 1 := rfl
  omega

/-- C7 (amended) — File ingestion degrades silently, never raises: the
single-file reader returns the empty string when the size exceeds
`maxFileSize` (this check takes precedence: it fires regardless of the
extension), when the lower-cased path ends in a denylisted binary
extension, and when the plain-text UTF-8 decode fails; a DOCX or PDF
whose extraction fails instead contributes the marker-wrapped empty
content (header and markers with empty body) — a non-empty string — and
in no case does an error propagate. -/
theorem readSingleFile_skips (M : Nat) (rp : String → String → String)
    (f : FileInfo) (b : Option String) :
    (f.size > M → readSingleFile M rp f b = "") ∧
    (f.size ≤ M → hasBinaryExtension f.path = true →
      readSingleFile M rp f b = "") ∧
    (f.size ≤ M → hasBinaryExtension f.path = false →
      pyEndsWith (pyLower f.path) ".docx" = false →
      pyEndsWith (pyLower f.path) ".pdf" = false →
      f.utf8Content = none → readSingleFile M rp f b = "") ∧
    (f.size ≤ M → hasBinaryExtension f.path = false →
      pyEndsWith (pyLower f.path) ".docx" = true → f.docxParagraphs = none →
      readSingleFile M rp f b =
        fileHeader rp f.path b ++ FILE_MARKER_END ++ "\n" ∧
      readSingleFile M rp f b ≠ "") ∧
    (f.size ≤ M → hasBinaryExtension f.path = false →
      pyEndsWith (pyLower f.path) ".docx" = false →
      pyEndsWith (pyLower f.path) ".pdf" = true → f.pdfText = none →
      readSingleFile M rp f b =
        fileHeader rp f.path b ++ FILE_MARKER_END ++ "\n" ∧
      readSingleFile M rp f b ≠ "") := by
  refine ⟨?_, ?_, ?_, ?_, ?_⟩
  · intro hs
    simp [readSingleFile, hs]
  · intro hs hbin
    have hns : ¬ f.size > M := by omega
    simp [readSingleFile, hns, hbin]
  · intro hs hbin hdocx hpdf hutf
    have hns : ¬ f.size > M := by omega
    simp [readSingleFile, hns, hbin, hdocx, hpdf, hutf]
  · intro hs hbin hdocx hnone
    have hns : ¬ f.size > M := by omega
    have heq : readSingleFile M rp f b =
        fileHeader rp f.path b ++ FILE_MARKER_END ++ "\n" := by
      simp [readSingleFile, hns, hbin, hdocx, extractTextFromDocx, hnone,
        String.append_empty]
    refine ⟨heq, ?_⟩
    rw [heq]
    exact append_newline_ne_empty (fileHeader rp f.path b ++ FILE_MARKER_END)
  · intro hs hbin hdocx hpdf hnone
    have hns : ¬ f.size > M := by omega
    have heq : readSingleFile M rp f b =
        fileHeader rp f.path b ++ FILE_MARKER_END ++ "\n" := by
      simp [readSingleFile, hns, hbin, hdocx, hpdf, extractTextFromPdf, hnone,
        String.append_empty]
    refine ⟨heq, ?_⟩
    rw [heq]
    exact append_newline_ne_empty (fileHeader rp f.path b ++ FILE_MARKER_END)

/-- Witness for C7's amended theorem: an oversized DOCX file (6 bytes
against a 5-byte limit) is skipped by the size check even though its
extension would otherwise route it to extraction — the size check takes
precedence. -/
theorem readSingleFile_skips_witness :
    readSingleFile 5 (fun p _ => p) ⟨"big.docx", 6, none, none, none⟩ none = "" :=
  (readSingleFile_skips 5 (fun p _ => p) ⟨"big.docx", 6, none, none, none⟩
      none).1 (by decide)

/-- Counterexample to C7 as stated: a DOCX file whose extraction fails
(modelled by `docxParagraphs = none`) makes `_readSingleFile` return the
marker-wrapped empty content, not the empty string. -/
theorem readSingleFile_counterexample :
    readSingleFile (5 * 1024 * 1024) (fun p _ => p)
      ⟨"a.docx", 0, none, none, none⟩ none ≠ "" ∧
    readSingleFile (5 * 1024 * 1024) (fun p _ => p)
      ⟨"a.docx", 0, none, none, none⟩ none =
      "\n<|file|>[Content from a.docx]:\n<|/file|>\n" := by
  decide

end ObeliscaDivergencia
